import Mathlib

/-!
Shallow embedding of the lighthouse gossip message codec
(`beacon_node/eth2-libp2p/src/pubsub.rs`) and the sync block processor
(`beacon_node/network/src/sync/block_processor.rs`), together with proofs
about the properties claimed of them.

Conventions of the embedding:
* Byte strings are `List Nat`; opaque consensus objects (blocks,
  attestations, ...) live in external crates and are embedded as `Nat`
  stand-ins behind type synonyms; their SSZ codecs are passed in as an
  explicit `ObjectCodecs` record (the source treats them as opaque).
* Topic resolution (`GossipTopic::decode`, in `topics.rs`, not part of the
  sources under study) is passed in as an explicit `resolve` function.
* Fallible Rust functions returning `Result` become `Except`.
* Side effects of the block processor (calls into the chain-import
  dependency, fork-choice invocations, log lines, channel sends) are made
  explicit as fields of result records, so that claims about effects become
  statements about those fields.
-/

namespace Lighthouse

/-! ### External stand-in types (types crate, eth2-libp2p crate) -/

/-- Stand-in for `types::BeaconBlock` (opaque to the code under study). -/
abbrev BeaconBlockObj := Nat

/-- Stand-in for `types::AggregateAndProof` (opaque). -/
abbrev AggregateAndProofObj := Nat

/-- Stand-in for `types::Attestation` (opaque). -/
abbrev AttestationObj := Nat

/-- Stand-in for `types::VoluntaryExit` (opaque). -/
abbrev VoluntaryExitObj := Nat

/-- Stand-in for `types::ProposerSlashing` (opaque). -/
abbrev ProposerSlashingObj := Nat

/-- Stand-in for `types::AttesterSlashing` (opaque). -/
abbrev AttesterSlashingObj := Nat

/-- Stand-in for `eth2_libp2p::SubnetId`. -/
abbrev SubnetId := Nat

/-- Stand-in for `libp2p::TopicHash`: the codec only uses its string form. -/
abbrev TopicHash := String

/-! ### Topic model (`eth2-libp2p/src/topics.rs`, external to src) -/

/-- Modelled from the spec: the gossip encoding enumeration; the current
topic scheme supports exactly one wire encoding, SSZ. -/
inductive GossipEncoding where
  | SSZ
deriving DecidableEq, Repr

/-- Modelled from the spec: the message-kind component of a resolved topic;
one fixed kind per consensus object plus the parametric subnet family
`CommitteeIndex(subnet_id)`. -/
inductive GossipKind where
  | BeaconBlock
  | BeaconAggregateAndProof
  | CommitteeIndex (subnet_id : SubnetId)
  | VoluntaryExit
  | ProposerSlashing
  | AttesterSlashing
deriving DecidableEq, Repr

/-- Modelled from the spec: a resolved topic descriptor, carrying the wire
encoding and the message kind (the subnet is carried inside the kind).
The source reads these through the accessors `encoding()` and `kind()`. -/
structure GossipTopic where
  encoding : GossipEncoding
  kind : GossipKind
deriving DecidableEq, Repr

/-! ### PubsubMessage (`eth2-libp2p/src/pubsub.rs`) -/

/-- Messages passed to and from the pubsub behaviour
(`pubsub.rs`, `enum PubsubMessage`).  The `Attestation` variant carries the
subnet id next to the attestation, as in the source's boxed pair. -/
inductive PubsubMessage where
  | BeaconBlock (data : BeaconBlockObj)
  | AggregateAndProofAttestation (data : AggregateAndProofObj)
  | Attestation (subnet : SubnetId) (att : AttestationObj)
  | VoluntaryExit (data : VoluntaryExitObj)
  | ProposerSlashing (data : ProposerSlashingObj)
  | AttesterSlashing (data : AttesterSlashingObj)
deriving DecidableEq, Repr

/-- The opaque SSZ object codecs for the six consensus object types, as the
spec describes them: `decode(bytes) -> T | DecodeError`,
`encode(T) -> bytes`.  The code under study only dispatches to them. -/
structure ObjectCodecs where
  blkSer : BeaconBlockObj → List Nat
  blkDeser : List Nat → Except String BeaconBlockObj
  aggSer : AggregateAndProofObj → List Nat
  aggDeser : List Nat → Except String AggregateAndProofObj
  attSer : AttestationObj → List Nat
  attDeser : List Nat → Except String AttestationObj
  vexSer : VoluntaryExitObj → List Nat
  vexDeser : List Nat → Except String VoluntaryExitObj
  pslSer : ProposerSlashingObj → List Nat
  pslDeser : List Nat → Except String ProposerSlashingObj
  aslSer : AttesterSlashingObj → List Nat
  aslDeser : List Nat → Except String AttesterSlashingObj

/-- Decode-time errors of `PubsubMessage::decode`.  The source renders both
cases into a `String`; this embedding keeps them apart structurally:
an SSZ decoding failure under a recognized kind, or the terminal
`Unknown gossipsub topics` error carrying the collected unknown topics. -/
inductive DecodeError where
  | sszError (msg : String)
  | unknownTopics (ts : List TopicHash)
deriving DecidableEq, Repr

/-- The loop body of `PubsubMessage::decode` (pubsub.rs lines 38-100):
walk the topic list; an unresolvable topic is appended to the collected
unknown-topic list and the loop continues; the first resolvable topic
dispatches on its encoding and kind, decodes the payload with the matching
object codec and returns, an SSZ error aborting the whole call; an
exhausted list returns the unknown-topics error. -/
def decodeAux (resolve : TopicHash → Option GossipTopic) (C : ObjectCodecs)
    (data : List Nat) : List TopicHash → List TopicHash →
    Except DecodeError PubsubMessage
  | [], unknown_topics => .error (.unknownTopics unknown_topics)
  | topic :: rest, unknown_topics =>
    match resolve topic with
    | none => decodeAux resolve C data rest (unknown_topics ++ [topic])
    | some gossip_topic =>
      match gossip_topic.encoding with
      | .SSZ =>
        match gossip_topic.kind with
        | .BeaconAggregateAndProof =>
          match C.aggDeser data with
          | .error e => .error (.sszError e)
          | .ok agg_and_proof => .ok (.AggregateAndProofAttestation agg_and_proof)
        | .CommitteeIndex subnet_id =>
          match C.attDeser data with
          | .error e => .error (.sszError e)
          | .ok attestation => .ok (.Attestation subnet_id attestation)
        | .BeaconBlock =>
          match C.blkDeser data with
          | .error e => .error (.sszError e)
          | .ok beacon_block => .ok (.BeaconBlock beacon_block)
        | .VoluntaryExit =>
          match C.vexDeser data with
          | .error e => .error (.sszError e)
          | .ok voluntary_exit => .ok (.VoluntaryExit voluntary_exit)
        | .ProposerSlashing =>
          match C.pslDeser data with
          | .error e => .error (.sszError e)
          | .ok proposer_slashing => .ok (.ProposerSlashing proposer_slashing)
        | .AttesterSlashing =>
          match C.aslDeser data with
          | .error e => .error (.sszError e)
          | .ok attester_slashing => .ok (.AttesterSlashing attester_slashing)

/-- `PubsubMessage::decode(topics, data)`: run the topic loop with an empty
collected unknown-topic list. -/
def PubsubMessage.decode (resolve : TopicHash → Option GossipTopic)
    (C : ObjectCodecs) (topics : List TopicHash) (data : List Nat) :
    Except DecodeError PubsubMessage :=
  decodeAux resolve C data topics []

/-- `PubsubMessage::encode(encoding)` (pubsub.rs lines 104-120), embedded
as the source stands.  The source's match is malformed: its first arm
chains `BeaconBlock`, `VoluntaryExit`, `ProposerSlashing`,
`AttesterSlashing` and a nonexistent variant `Unknown` into one arm whose
body is `data.as_ssz_bytes()`; the `Attestation` arm returns `Vec::new()`
(the empty byte string) instead of serializing; and there is no arm at all
for `AggregateAndProofAttestation`.  The embedding renders the arms that
name real variants as written, the empty vector for `Attestation`, and
`none` for the variant the match does not cover. -/
def PubsubMessage.encode (C : ObjectCodecs) :
    PubsubMessage → GossipEncoding → Option (List Nat)
  | .BeaconBlock data, .SSZ => some (C.blkSer data)
  | .VoluntaryExit data, .SSZ => some (C.vexSer data)
  | .ProposerSlashing data, .SSZ => some (C.pslSer data)
  | .AttesterSlashing data, .SSZ => some (C.aslSer data)
  | .Attestation _ _, .SSZ => some []
  | .AggregateAndProofAttestation _, .SSZ => none

/-! ### Concrete test instances for the external collaborators -/

/-- A concrete instantiation of the opaque object codecs, used to evaluate
the codec claims on explicit inputs: every object stand-in `n` serializes
to `n` ones, and deserialization returns the length, so each codec
round-trips. -/
def testCodecs : ObjectCodecs :=
  ⟨fun n => List.replicate n 1, fun l => .ok l.length,
   fun n => List.replicate n 1, fun l => .ok l.length,
   fun n => List.replicate n 1, fun l => .ok l.length,
   fun n => List.replicate n 1, fun l => .ok l.length,
   fun n => List.replicate n 1, fun l => .ok l.length,
   fun n => List.replicate n 1, fun l => .ok l.length⟩

/-- A concrete topic resolver used to evaluate the codec claims: one topic
string per gossip kind, the subnet family represented at subnet 0, and
every other string unresolvable. -/
def testResolve : TopicHash → Option GossipTopic
  | "beacon_block" => some ⟨.SSZ, .BeaconBlock⟩
  | "beacon_aggregate_and_proof" => some ⟨.SSZ, .BeaconAggregateAndProof⟩
  | "committee_index_0" => some ⟨.SSZ, .CommitteeIndex 0⟩
  | "voluntary_exit" => some ⟨.SSZ, .VoluntaryExit⟩
  | "proposer_slashing" => some ⟨.SSZ, .ProposerSlashing⟩
  | "attester_slashing" => some ⟨.SSZ, .AttesterSlashing⟩
  | _ => none

/-! ### Block processor (`network/src/sync/block_processor.rs`) -/

/-- Stand-in for `types::SignedBeaconBlock` (opaque to the processor). -/
abbrev SignedBeaconBlock := Nat

/-- Stand-in for `types::Hash256` block roots. -/
abbrev Root := Nat

/-- Stand-in for `range_sync::BatchId`. -/
abbrev BatchId := Nat

/-- Stand-in for `eth2_libp2p::PeerId`. -/
abbrev PeerId := Nat

/-- Id associated to a block processing request
(`block_processor.rs`, `enum ProcessId`). -/
inductive ProcessId where
  | RangeBatchId (batch_id : BatchId)
  | ParentLookup (peer_id : PeerId)
deriving DecidableEq, Repr

/-- The result of a block processing request
(`block_processor.rs`, `enum BatchProcessResult`). -/
inductive BatchProcessResult where
  | Success
  | Failed
deriving DecidableEq, Repr

/-- The chain-import error taxonomy matched by `process_blocks`
(`beacon_chain::BlockError`).  The variants the source matches by name are
embedded with their used fields; every remaining variant of the external
enum is collapsed into `otherInvalid`, carrying its debug rendering, which
is all the catch-all `other` arm of the source consumes. -/
inductive BlockError where
  | ParentUnknown (parent : Root)
  | BlockIsAlreadyKnown
  | FutureSlot (present_slot : Nat) (block_slot : Nat)
  | WouldRevertFinalizedSlot (block_slot : Nat) (finalized_slot : Nat)
  | GenesisBlock
  | BeaconChainError (e : String)
  | otherInvalid (desc : String)
deriving DecidableEq, Repr

/-- Messages the worker sends to the sync coordinator
(`sync::manager::SyncMessage`, restricted to the two variants the worker
produces). -/
inductive SyncMessage where
  | BatchProcessed (batch_id : BatchId) (downloaded_blocks : List SignedBeaconBlock)
      (result : BatchProcessResult)
  | ParentLookupFailed (peer_id : PeerId)
deriving DecidableEq, Repr

/-- Log severities used by the worker. -/
inductive LogLevel where
  | trace
  | debug
  | warn
  | error
  | crit
deriving DecidableEq, Repr

/-- One emitted log line: severity and the fixed message text of the
corresponding `slog` call in the source. -/
structure LogEvent where
  level : LogLevel
  msg : String
deriving DecidableEq, Repr

/-- Modelled from the spec: the chain-import dependency, an opaque
collaborator exposing `process_chain_segment(blocks) -> Result<roots,
BlockError>` and `fork_choice() -> Result<(), Error>`; embedded as a record
of pure functions (the fork-choice error payload reduced to a string). -/
structure BeaconChain where
  process_chain_segment : List SignedBeaconBlock → Except BlockError (List Root)
  fork_choice : Except String Unit

/-- The observable behaviour of one `process_blocks` call: the returned
`Result<(), String>`, the argument lists of the calls made into
`process_chain_segment`, the number of `fork_choice` invocations, and the
emitted log lines. -/
structure ProcResult where
  result : Except String Unit
  segmentCalls : List (List SignedBeaconBlock)
  forkChoiceCalls : Nat
  logs : List LogEvent
deriving Repr

/-- `run_fork_choice` (block_processor.rs lines 200-214): invoke the
chain's fork choice, log success at trace level and failure at error
level, and swallow the failure. -/
def run_fork_choice (chain : BeaconChain) : List LogEvent :=
  match chain.fork_choice with
  | .ok _ => [⟨.trace, "Fork choice success"⟩]
  | .error _ => [⟨.error, "Fork choice failed"⟩]

/-- `process_blocks` (block_processor.rs lines 96-196).  The `Weak` chain
handle is embedded as `Option BeaconChain`: `none` is a handle whose
`upgrade()` fails, in which case the body is skipped and `Ok(())` is
returned with no effects.  With a live chain, one `process_chain_segment`
call is made and its outcome classified exactly as in the source; on a
non-empty imported-root list `run_fork_choice` runs.  `tol` is
`FUTURE_SLOT_TOLERANCE`, a constant imported from `router::processor`
outside the sources under study. -/
def process_blocks (tol : Nat) (chain : Option BeaconChain)
    (downloaded_blocks : List SignedBeaconBlock) : ProcResult :=
  match chain with
  | none => ⟨.ok (), [], 0, []⟩
  | some chain =>
    let blocks := downloaded_blocks
    match chain.process_chain_segment blocks with
    | .ok roots =>
      if roots.isEmpty then
        ⟨.ok (), [blocks], 0, [⟨.debug, "All blocks already known"⟩]⟩
      else
        ⟨.ok (), [blocks], 1,
          ⟨.debug, "Imported blocks from network"⟩ :: run_fork_choice chain⟩
    | .error (.ParentUnknown parent) =>
      ⟨.error ("Block has an unknown parent: " ++ toString parent),
        [blocks], 0, [⟨.warn, "Parent block is unknown"⟩]⟩
    | .error .BlockIsAlreadyKnown =>
      ⟨.ok (), [blocks], 0, [⟨.crit, "Unknown handling of block error"⟩]⟩
    | .error (.FutureSlot present_slot block_slot) =>
      ⟨.error ("Block with slot " ++ toString block_slot ++
          " is higher than the current slot " ++ toString present_slot),
        [blocks], 0,
        if present_slot + tol ≥ block_slot then
          [⟨.warn, "Block is ahead of our slot clock"⟩]
        else
          [⟨.debug, "Block is slightly ahead of our slot clock, ignoring."⟩]⟩
    | .error (.WouldRevertFinalizedSlot _ _) =>
      ⟨.ok (), [blocks], 0, [⟨.debug, "Finalized or earlier block processed"⟩]⟩
    | .error .GenesisBlock =>
      ⟨.ok (), [blocks], 0, [⟨.debug, "Genesis block was processed"⟩]⟩
    | .error (.BeaconChainError e) =>
      ⟨.error ("Internal error whilst processing block: " ++ e),
        [blocks], 0, [⟨.warn, "BlockProcessingFailure"⟩]⟩
    | .error (.otherInvalid desc) =>
      ⟨.error ("Peer sent invalid block. Reason: " ++ desc),
        [blocks], 0, [⟨.warn, "Invalid block received"⟩]⟩

/-- The observable behaviour of the worker spawned by
`spawn_block_processor`: every effect of the thread body.  `outcomes`
records each point where the worker reaches a terminal classification of
the batch (the `result` binding of the range arm; the `Err`/`Ok` match of
the parent-lookup arm).  `sendAttempts` lists the `try_send` calls made on
the coordinator channel in order; `delivered` those that succeeded. -/
structure WorkerRun where
  proc : ProcResult
  outcomes : List BatchProcessResult
  sendAttempts : List SyncMessage
  delivered : List SyncMessage
deriving Repr

/-- The thread body of `spawn_block_processor` (block_processor.rs lines
38-89).  The coordinator channel is embedded as the flag `channelOpen`:
`try_send` succeeds if and only if it is true, and a failed send is
swallowed after a debug log, exactly as the source's `unwrap_or_else`.
The range arm runs `process_blocks` on the blocks as received, classifies
into a `BatchProcessResult` and try-sends one `BatchProcessed` message;
the parent-lookup arm runs `process_blocks` on the reversed blocks and
try-sends one `ParentLookupFailed` message only in the `Err` case. -/
def spawn_block_processor (tol : Nat) (chain : Option BeaconChain)
    (process_id : ProcessId) (downloaded_blocks : List SignedBeaconBlock)
    (channelOpen : Bool) : WorkerRun :=
  match process_id with
  | .RangeBatchId batch_id =>
    let proc := process_blocks tol chain downloaded_blocks
    let result : BatchProcessResult :=
      match proc.result with
      | .ok _ => .Success
      | .error _ => .Failed
    let msg := SyncMessage.BatchProcessed batch_id downloaded_blocks result
    ⟨proc, [result], [msg], if channelOpen then [msg] else []⟩
  | .ParentLookup peer_id =>
    let proc := process_blocks tol chain downloaded_blocks.reverse
    match proc.result with
    | .error _ =>
      let msg := SyncMessage.ParentLookupFailed peer_id
      ⟨proc, [.Failed], [msg], if channelOpen then [msg] else []⟩
    | .ok _ =>
      ⟨proc, [.Success], [], []⟩

/-! ### Helper lemmas -/

/-- With a live chain, `process_blocks` makes exactly one
`process_chain_segment` call, on exactly the block list it was handed. -/
theorem process_blocks_some_segmentCalls (tol : Nat) (c : BeaconChain)
    (bs : List SignedBeaconBlock) :
    (process_blocks tol (some c) bs).segmentCalls = [bs] := by
  simp only [process_blocks]
  split
  · split <;> rfl
  all_goals rfl

/-- The parent-lookup arm of the worker records exactly the
`process_blocks` run on the reversed block list. -/
theorem spawn_parent_proc (tol : Nat) (chain : Option BeaconChain) (p : PeerId)
    (blocks : List SignedBeaconBlock) (ch : Bool) :
    (spawn_block_processor tol chain (.ParentLookup p) blocks ch).proc =
      process_blocks tol chain blocks.reverse := by
  simp only [spawn_block_processor]
  split <;> rfl

/-- The range arm of the worker records exactly the `process_blocks` run
on the block list as received. -/
theorem spawn_range_proc (tol : Nat) (chain : Option BeaconChain) (b : BatchId)
    (blocks : List SignedBeaconBlock) (ch : Bool) :
    (spawn_block_processor tol chain (.RangeBatchId b) blocks ch).proc =
      process_blocks tol chain blocks := by
  rfl

/-- An unresolvable topic is skipped by the decode loop, joining the
collected unknown-topic list. -/
theorem decodeAux_unknown (resolve : TopicHash → Option GossipTopic)
    (C : ObjectCodecs) (data : List Nat) (t : TopicHash)
    (rest acc : List TopicHash) (h : resolve t = none) :
    decodeAux resolve C data (t :: rest) acc =
      decodeAux resolve C data rest (acc ++ [t]) := by
  simp only [decodeAux, h]

/-- Once a topic resolves, the decode loop's result depends only on that
topic and the payload: neither the remaining topics nor the collected
unknown-topic list are consulted. -/
theorem decodeAux_known (resolve : TopicHash → Option GossipTopic)
    (C : ObjectCodecs) (data : List Nat) (t : TopicHash)
    (gt : GossipTopic) (rest acc acc' : List TopicHash)
    (h : resolve t = some gt) :
    decodeAux resolve C data (t :: rest) acc =
      decodeAux resolve C data [t] acc' := by
  simp only [decodeAux, h]

/-! ### Concrete chains used to evaluate the processor claims -/

/-- A chain whose segment call always imports one root and whose fork
choice fails, to observe that the failure is swallowed. -/
def segOkChain : BeaconChain := ⟨fun _ => .ok [9], .error "fork choice boom"⟩

/-- A chain whose segment call always fails with a far-future slot:
block slot 20 against present slot 10. -/
def futFarChain : BeaconChain := ⟨fun _ => .error (.FutureSlot 10 20), .ok ()⟩

/-- A chain whose segment call always fails with a slightly-future slot:
block slot 11 against present slot 10. -/
def futNearChain : BeaconChain := ⟨fun _ => .error (.FutureSlot 10 11), .ok ()⟩

/-- A chain whose segment call always fails with `BlockIsAlreadyKnown`. -/
def alreadyKnownChain : BeaconChain :=
  ⟨fun _ => .error .BlockIsAlreadyKnown, .ok ()⟩

/-! ### Claims -/

/-- C1: the spec claims every `PubsubMessage` variant encodes to its inner
object's SSZ serialization with `decode` as a left inverse, the
subnet-tagged `Attestation` variant included.  The code fails this: its
`encode` yields the empty byte string for an `Attestation` while the
object codec's serialization of the same attestation is non-empty, so
decoding the encoded bytes under the message's own topic yields a
different message, and the source's match has no arm at all for
`AggregateAndProofAttestation` (it instead names a variant `Unknown` that
the `PubsubMessage` enum does not declare). -/
theorem C1_attestation_encode_broken :
    PubsubMessage.encode testCodecs (.Attestation 0 1) .SSZ = some [] ∧
    testCodecs.attSer 1 = [1] ∧
    PubsubMessage.decode testResolve testCodecs ["committee_index_0"] [] =
      .ok (.Attestation 0 0) ∧
    PubsubMessage.Attestation 0 0 ≠ .Attestation 0 1 ∧
    PubsubMessage.encode testCodecs (.AggregateAndProofAttestation 5) .SSZ = none :=
  ⟨rfl, rfl, rfl, by decide, rfl⟩

/-- C2 counterexample: with a dead chain handle, a `RangeBatchId` batch
still attempts (and, on an open channel, delivers) a coordinator message,
a `BatchProcessed` report carrying `Success`, contradicting the claim that
no message is sent on the coordinator channel. -/
theorem C2_counterexample :
    (spawn_block_processor 1 none (.RangeBatchId 0) [] true).sendAttempts =
      [SyncMessage.BatchProcessed 0 [] .Success] ∧
    (spawn_block_processor 1 none (.RangeBatchId 0) [] true).delivered ≠ [] :=
  ⟨rfl, by decide⟩

/-- C2 (amended): with a dead chain handle the worker makes no call into
the chain-import dependency and runs no fork choice, for both kinds of
`ProcessId`; a `ParentLookup` sends nothing on the coordinator channel,
while a `RangeBatchId` batch still attempts exactly one `BatchProcessed`
send reporting `Success`.  (The embedding is a total function, so every
run terminates without a panic path.) -/
theorem C2_amended_dead_chain (tol b p : Nat)
    (blocks : List SignedBeaconBlock) (ch : Bool) :
    (spawn_block_processor tol none (.RangeBatchId b) blocks ch).proc.segmentCalls = [] ∧
    (spawn_block_processor tol none (.ParentLookup p) blocks ch).proc.segmentCalls = [] ∧
    (spawn_block_processor tol none (.RangeBatchId b) blocks ch).proc.forkChoiceCalls = 0 ∧
    (spawn_block_processor tol none (.ParentLookup p) blocks ch).proc.forkChoiceCalls = 0 ∧
    (spawn_block_processor tol none (.ParentLookup p) blocks ch).sendAttempts = [] ∧
    (spawn_block_processor tol none (.RangeBatchId b) blocks ch).sendAttempts =
      [SyncMessage.BatchProcessed b blocks .Success] :=
  ⟨rfl, rfl, rfl, rfl, rfl, rfl⟩

/-- C3: a range batch whose `process_chain_segment` call returns `Ok` is
classified `Success` and reported as such; fork choice runs zero times
when the returned root list is empty and exactly once when it is
non-empty; and since the statement holds for every value of the chain's
`fork_choice` field, a fork-choice failure is swallowed and the batch is
still reported `Success`. -/
theorem C3_success_and_fork_choice (tol b : Nat) (c : BeaconChain)
    (blocks : List SignedBeaconBlock) (roots : List Root) (ch : Bool)
    (h : c.process_chain_segment blocks = .ok roots) :
    (spawn_block_processor tol (some c) (.RangeBatchId b) blocks ch).outcomes =
      [BatchProcessResult.Success] ∧
    (spawn_block_processor tol (some c) (.RangeBatchId b) blocks ch).sendAttempts =
      [SyncMessage.BatchProcessed b blocks .Success] ∧
    (spawn_block_processor tol (some c) (.RangeBatchId b) blocks ch).proc.forkChoiceCalls =
      (if roots.isEmpty then 0 else 1) := by
  by_cases hr : roots.isEmpty <;>
    simp [spawn_block_processor, process_blocks, h, hr]

/-- C3 witness: a concrete chain importing one root under a failing fork
choice still yields `Success` with exactly one fork-choice invocation. -/
theorem C3_witness :
    (spawn_block_processor 1 (some segOkChain) (.RangeBatchId 4) [2, 3] true).outcomes =
      [BatchProcessResult.Success] ∧
    (spawn_block_processor 1 (some segOkChain) (.RangeBatchId 4) [2, 3] true).proc.forkChoiceCalls = 1 := by
  have h := C3_success_and_fork_choice 1 4 segOkChain [2, 3] [9] true rfl
  exact ⟨h.1, by simpa using h.2.2⟩

/-- C4 counterexample: a parent lookup whose import succeeds with one new
root does invoke fork choice in the same call stack, once — `process_blocks`
runs fork choice on any non-empty imported-root list, and the parent-lookup
arm calls `process_blocks` directly. -/
theorem C4_counterexample :
    (spawn_block_processor 1 (some segOkChain) (.ParentLookup 3) [5] true).outcomes =
      [BatchProcessResult.Success] ∧
    (spawn_block_processor 1 (some segOkChain) (.ParentLookup 3) [5] true).proc.forkChoiceCalls = 1 :=
  ⟨rfl, rfl⟩

/-- C4 (amended): the parent-lookup path triggers fork choice in-line
under exactly the same rule as the range path: once when the import
returns a non-empty root list, never when the list is empty; the
parent-lookup success path merely sends no coordinator message. -/
theorem C4_amended_parent_fork_choice (tol p : Nat) (c : BeaconChain)
    (blocks : List SignedBeaconBlock) (roots : List Root) (ch : Bool)
    (h : c.process_chain_segment blocks.reverse = .ok roots) :
    (spawn_block_processor tol (some c) (.ParentLookup p) blocks ch).proc.forkChoiceCalls =
      (if roots.isEmpty then 0 else 1) ∧
    (spawn_block_processor tol (some c) (.ParentLookup p) blocks ch).sendAttempts = [] := by
  have hproc := spawn_parent_proc tol (some c) p blocks ch
  constructor
  · rw [hproc]
    by_cases hr : roots.isEmpty <;> simp [process_blocks, h, hr]
  · simp only [spawn_block_processor]
    split
    · next heq =>
        rw [show (process_blocks tol (some c) blocks.reverse).result = .ok () by
              by_cases hr : roots.isEmpty <;> simp [process_blocks, h, hr]] at heq
        cases heq
    · rfl

/-- C4 amended witness: a concrete parent lookup importing one root runs
fork choice exactly once and sends nothing. -/
theorem C4_amended_witness :
    (spawn_block_processor 1 (some segOkChain) (.ParentLookup 8) [2, 3] true).proc.forkChoiceCalls = 1 ∧
    (spawn_block_processor 1 (some segOkChain) (.ParentLookup 8) [2, 3] true).sendAttempts = [] := by
  have h := C4_amended_parent_fork_choice 1 8 segOkChain [2, 3] [9] true rfl
  exact ⟨by simpa using h.1, h.2⟩

/-- C5: the source's own inline comments and the claim say a block beyond
the slot tolerance is dropped with a warning and a block within tolerance
gets the softer debug diagnostic; evaluated at tolerance 1, the code does
the reverse: a block 10 slots ahead gets the debug "slightly ahead"
diagnostic, a block 1 slot ahead gets the warn "ahead of our slot clock"
diagnostic.  Both cases do return an `Err` reason string and the batch is
reported `Failed`, as claimed. -/
theorem C5_future_slot_branches_swapped :
    (process_blocks 1 (some futFarChain) [4]).logs =
      [⟨.debug, "Block is slightly ahead of our slot clock, ignoring."⟩] ∧
    (process_blocks 1 (some futNearChain) [4]).logs =
      [⟨.warn, "Block is ahead of our slot clock"⟩] ∧
    (process_blocks 1 (some futFarChain) [4]).result =
      .error "Block with slot 20 is higher than the current slot 10" ∧
    (process_blocks 1 (some futNearChain) [4]).result =
      .error "Block with slot 11 is higher than the current slot 10" ∧
    (spawn_block_processor 1 (some futFarChain) (.RangeBatchId 0) [4] true).outcomes =
      [BatchProcessResult.Failed] ∧
    (spawn_block_processor 1 (some futNearChain) (.RangeBatchId 0) [4] true).outcomes =
      [BatchProcessResult.Failed] :=
  ⟨rfl, rfl, rfl, rfl, rfl, rfl⟩

/-- C6: with a live chain, every worker run reaches exactly one terminal
classification of its batch, for both kinds of `ProcessId`: never zero,
never two. -/
theorem C6_exactly_one_outcome (tol b p : Nat) (c : BeaconChain)
    (blocks : List SignedBeaconBlock) (ch : Bool) :
    (spawn_block_processor tol (some c) (.RangeBatchId b) blocks ch).outcomes.length = 1 ∧
    (spawn_block_processor tol (some c) (.ParentLookup p) blocks ch).outcomes.length = 1 := by
  constructor
  · rfl
  · simp only [spawn_block_processor]
    split <;> rfl

/-- C7: a range batch whose segment call fails with `BlockIsAlreadyKnown`,
`WouldRevertFinalizedSlot` or `GenesisBlock` is not failed by that error:
`process_blocks` returns `Ok` and the batch is reported `Success`. -/
theorem C7_benign_errors_still_success (tol b bs fs : Nat) (c : BeaconChain)
    (blocks : List SignedBeaconBlock) (ch : Bool)
    (h : c.process_chain_segment blocks = .error .BlockIsAlreadyKnown ∨
         c.process_chain_segment blocks = .error (.WouldRevertFinalizedSlot bs fs) ∨
         c.process_chain_segment blocks = .error .GenesisBlock) :
    (process_blocks tol (some c) blocks).result = .ok () ∧
    (spawn_block_processor tol (some c) (.RangeBatchId b) blocks ch).outcomes =
      [BatchProcessResult.Success] ∧
    (spawn_block_processor tol (some c) (.RangeBatchId b) blocks ch).sendAttempts =
      [SyncMessage.BatchProcessed b blocks .Success] := by
  rcases h with h | h | h <;>
    simp [spawn_block_processor, process_blocks, h]

/-- C7 witness: a concrete chain failing with `BlockIsAlreadyKnown` still
yields `Ok` and a `Success` report. -/
theorem C7_witness :
    (process_blocks 1 (some alreadyKnownChain) [7]).result = .ok () ∧
    (spawn_block_processor 1 (some alreadyKnownChain) (.RangeBatchId 2) [7] true).outcomes =
      [BatchProcessResult.Success] ∧
    (spawn_block_processor 1 (some alreadyKnownChain) (.RangeBatchId 2) [7] true).sendAttempts =
      [SyncMessage.BatchProcessed 2 [7] .Success] :=
  C7_benign_errors_still_success 1 2 0 0 alreadyKnownChain [7] true (Or.inl rfl)

/-- C8: a parent-lookup batch hands `process_chain_segment` exactly the
reverse of the input sequence, so newest-first input becomes oldest-first;
in particular the input `[10, 9, 8]` is imported as `[8, 9, 10]`. -/
theorem C8_parent_lookup_reverses (tol p : Nat) (c : BeaconChain)
    (blocks : List SignedBeaconBlock) (ch : Bool) :
    (spawn_block_processor tol (some c) (.ParentLookup p) blocks ch).proc.segmentCalls =
      [blocks.reverse] ∧
    (spawn_block_processor tol (some c) (.ParentLookup p) [10, 9, 8] ch).proc.segmentCalls =
      [[8, 9, 10]] := by
  constructor
  · rw [spawn_parent_proc, process_blocks_some_segmentCalls]
  · rw [spawn_parent_proc, process_blocks_some_segmentCalls]
    rfl

/-- A run of unresolvable topics at the front of the list is skipped
wholesale, each joining the collected unknown-topic list in order. -/
theorem decodeAux_skip_unknown (resolve : TopicHash → Option GossipTopic)
    (C : ObjectCodecs) (data : List Nat) (pre : List TopicHash) :
    (∀ u ∈ pre, resolve u = none) → ∀ rest acc,
      decodeAux resolve C data (pre ++ rest) acc =
        decodeAux resolve C data rest (acc ++ pre) := by
  induction pre with
  | nil => intro _ rest acc; simp
  | cons u us ih =>
    intro h rest acc
    rw [List.cons_append,
        decodeAux_unknown resolve C data u (us ++ rest) acc (h u (by simp))]
    rw [ih (fun v hv => h v (by simp [hv])) rest (acc ++ [u])]
    rw [List.append_assoc]
    rfl

/-- C9: the first topic in iteration order that resolves to a known
`GossipTopic` determines the whole decode: with any run of unresolvable
topics before it and any topics at all after it, the result equals
decoding with that single topic alone, so the later topics are never
consulted. -/
theorem C9_first_match_wins (resolve : TopicHash → Option GossipTopic)
    (C : ObjectCodecs) (pre : List TopicHash) (t : TopicHash)
    (ts : List TopicHash) (gt : GossipTopic) (data : List Nat)
    (hpre : ∀ u ∈ pre, resolve u = none) (ht : resolve t = some gt) :
    PubsubMessage.decode resolve C (pre ++ t :: ts) data =
      PubsubMessage.decode resolve C [t] data := by
  unfold PubsubMessage.decode
  rw [decodeAux_skip_unknown resolve C data pre hpre (t :: ts) []]
  exact decodeAux_known resolve C data t gt ts ([] ++ pre) [] ht

/-- C9 witness: a list of one unknown topic followed by the known
`BeaconBlock` topic decodes exactly as the `BeaconBlock` topic alone, and
yields the `BeaconBlock` message. -/
theorem C9_witness :
    PubsubMessage.decode testResolve testCodecs (["bogus"] ++ "beacon_block" :: []) [1, 1, 1] =
      PubsubMessage.decode testResolve testCodecs ["beacon_block"] [1, 1, 1] ∧
    PubsubMessage.decode testResolve testCodecs ["bogus", "beacon_block"] [1, 1, 1] =
      .ok (.BeaconBlock 3) := by
  constructor
  · exact C9_first_match_wins testResolve testCodecs ["bogus"] "beacon_block" []
      ⟨.SSZ, .BeaconBlock⟩ [1, 1, 1] (by decide) rfl
  · rfl

/-- C10: each invocation of the worker attempts at most one coordinator
send: the range arm attempts exactly one `BatchProcessed` message carrying
the batch's classification, the parent arm attempts exactly one
`ParentLookupFailed` on import failure and none on success, and delivery
never exceeds the attempts (a failed send is swallowed, not retried), for
live and dead chains alike. -/
theorem C10_at_most_one_send (tol b p : Nat) (chain : Option BeaconChain)
    (blocks : List SignedBeaconBlock) (ch : Bool) :
    (spawn_block_processor tol chain (.RangeBatchId b) blocks ch).sendAttempts =
      [SyncMessage.BatchProcessed b blocks
        (match (process_blocks tol chain blocks).result with
          | .ok _ => .Success
          | .error _ => .Failed)] ∧
    (spawn_block_processor tol chain (.ParentLookup p) blocks ch).sendAttempts =
      (match (process_blocks tol chain blocks.reverse).result with
        | .ok _ => []
        | .error _ => [SyncMessage.ParentLookupFailed p]) ∧
    (spawn_block_processor tol chain (.RangeBatchId b) blocks ch).sendAttempts.length ≤ 1 ∧
    (spawn_block_processor tol chain (.ParentLookup p) blocks ch).sendAttempts.length ≤ 1 ∧
    (spawn_block_processor tol chain (.RangeBatchId b) blocks ch).delivered.length ≤
      (spawn_block_processor tol chain (.RangeBatchId b) blocks ch).sendAttempts.length ∧
    (spawn_block_processor tol chain (.ParentLookup p) blocks ch).delivered.length ≤
      (spawn_block_processor tol chain (.ParentLookup p) blocks ch).sendAttempts.length := by
  refine ⟨rfl, ?_, ?_, ?_, ?_, ?_⟩
  · simp only [spawn_block_processor]
    split
    · next a heq => rw [heq]
    · next a heq => rw [heq]
  · exact Nat.le_refl 1
  · simp only [spawn_block_processor]
    split <;> simp
  · simp only [spawn_block_processor]
    cases ch <;> simp
  · simp only [spawn_block_processor]
    split <;> cases ch <;> simp

end Lighthouse
